import Mathlib

/-!
Shallow embedding of `server_working.py`: the request-admission and
bounded-execution controller of the SmolVLM vision service.  Timestamps and
durations (Python floats from `time.time()`) are modelled as rationals;
Python ints as `Nat`.  External collaborators (PIL image decoding, the
inference engine) are parameters of the embedded functions.
-/

namespace Server

/-! ## Rate limiter (`rate_limit_check`, lines 25-46) -/

def MAX_REQUESTS_PER_MINUTE : Nat := 60

def MAX_REQUESTS_PER_HOUR : Nat := 100

/-- Denial scope; the source uses the strings "minute" and "hour". -/
inductive Scope where
  | minute
  | hour
deriving DecidableEq, Repr

structure RateLimitResult where
  allowed : Bool
  limit_type : Option Scope
  window : List ℚ
deriving DecidableEq, Repr

/-- The pruning pass: `request_counts[client_ip] = [t for t in ... if now - t < 3600]`. -/
def prune (window : List ℚ) (now : ℚ) : List ℚ :=
  window.filter (fun t => decide (now - t < 3600))

/-- Embedding of `rate_limit_check` over one client's window: prune to the trailing hour,
count the trailing minute, deny minute-scope first, then hour-scope, else
append `now` and allow. -/
def rate_limit_check (window : List ℚ) (now : ℚ) : RateLimitResult :=
  let pruned := prune window now
  let recent := pruned.filter (fun t => decide (now - t < 60))
  if MAX_REQUESTS_PER_MINUTE ≤ recent.length then
    { allowed := false, limit_type := some Scope.minute, window := pruned }
  else if MAX_REQUESTS_PER_HOUR ≤ pruned.length then
    { allowed := false, limit_type := some Scope.hour, window := pruned }
  else
    { allowed := true, limit_type := none, window := pruned ++ [now] }

/-- Line 290: `retry_after = 60 if limit_type == "minute" else 3600`. -/
def retry_after (limit_type : Option Scope) : Nat :=
  if limit_type = some Scope.minute then 60 else 3600

/-- Run a sequence of admission checks for one client, threading the window. -/
def run_checks (w : List ℚ) : List ℚ → List RateLimitResult
  | [] => []
  | t :: ts => rate_limit_check w t :: run_checks (rate_limit_check w t).window ts

/-- The window left after a sequence of admission checks. -/
def run_window (w : List ℚ) : List ℚ → List ℚ
  | [] => w
  | t :: ts => run_window (rate_limit_check w t).window ts

/-! ## Statistics accumulator (`stats` dict, lines 108-119, and `update_stats`,
lines 121-134) -/

structure Stats where
  requests_processed : Nat
  total_processing_time : ℚ
  average_response_time : ℚ
  errors : Nat
  start_time : ℚ
  rate_limit_hits : Nat
  memory_warnings : Nat
  normal_requests : Nat
  quick_requests : Nat
  timeouts : Nat
deriving DecidableEq, Repr

def initial_stats (t0 : ℚ) : Stats :=
  { requests_processed := 0, total_processing_time := 0, average_response_time := 0,
    errors := 0, start_time := t0, rate_limit_hits := 0, memory_warnings := 0,
    normal_requests := 0, quick_requests := 0, timeouts := 0 }

/-- Embedding of `update_stats(processing_time, error, quick_mode)`.  Python's
`max(requests_processed - errors, 1)` agrees with truncated `Nat`
subtraction followed by `max · 1`. -/
def update_stats (s : Stats) (processing_time : ℚ) (error : Bool) (quick_mode : Bool) :
    Stats :=
  let s1 : Stats := { s with requests_processed := s.requests_processed + 1 }
  let s2 : Stats :=
    if quick_mode then { s1 with quick_requests := s1.quick_requests + 1 }
    else { s1 with normal_requests := s1.normal_requests + 1 }
  if error = false then
    let total := s2.total_processing_time + processing_time
    { s2 with
      total_processing_time := total,
      average_response_time :=
        total / ((max (s2.requests_processed - s2.errors) 1 : Nat) : ℚ) }
  else
    { s2 with errors := s2.errors + 1 }

/-! ## Timeout-bounded generation (`generation_with_timeout`, lines 243-270)

The engine call runs on a daemon thread; `join(timeout)` waits, and a thread
still alive afterwards means the deadline elapsed first.  The engine itself is
external: its behaviour is a parameter giving the call's duration and what it
eventually produces. -/

/-- What the engine's `generate` call eventually does on its worker thread:
stores a result, raises an exception, or finishes having stored neither. -/
inductive EngineResult where
  | success (ids : List Nat)
  | failure (msg : String)
  | noResult
deriving DecidableEq, Repr

structure EngineBehavior where
  duration : ℚ
  outcome : EngineResult
deriving DecidableEq, Repr

/-- Outcome of `generation_with_timeout` as observed by the caller:
`GenerationTimeoutError`, a re-raised engine exception (or the defensive
`RuntimeError` when the thread stored nothing), or the generated ids. -/
inductive GenResult where
  | timeout
  | engineError (msg : String)
  | ok (ids : List Nat)
deriving DecidableEq, Repr

structure TimeoutRun where
  result : GenResult
  /-- The worker thread is left running (daemon, never joined again or
  terminated) exactly when the deadline elapsed first. -/
  workerAbandoned : Bool
deriving DecidableEq, Repr

/-- Embedding of `generation_with_timeout`: the thread is alive after `join(timeout_seconds)`
iff the call's duration exceeds the deadline; then `GenerationTimeoutError` is
raised and the worker abandoned.  Otherwise the stored exception is re-raised,
a missing result raises `RuntimeError`, and a stored result is returned. -/
def generation_with_timeout (eng : EngineBehavior) (timeout_seconds : ℚ) : TimeoutRun :=
  if timeout_seconds < eng.duration then
    { result := GenResult.timeout, workerAbandoned := true }
  else
    match eng.outcome with
    | EngineResult.success ids => { result := GenResult.ok ids, workerAbandoned := false }
    | EngineResult.failure msg =>
        { result := GenResult.engineError msg, workerAbandoned := false }
    | EngineResult.noResult =>
        { result := GenResult.engineError ("Generation failed without exception"),
          workerAbandoned := false }

/-- Line 400: `timeout = 45 if quick_mode else 90`. -/
def mode_timeout (quick_mode : Bool) : ℚ :=
  if quick_mode then 45 else 90

/-! ## Post-generation handler paths (`chat_completions`, lines 417-455 and
487-498) -/

structure PathEffects where
  stats : Stats
  /-- Whether this return path ran the reclamation pass
  (`gc.collect()` / `torch.cuda.empty_cache()`). -/
  cleanupRan : Bool
  status : Nat
deriving DecidableEq, Repr

/-- What `chat_completions` does with the stats, the memory reclamation pass
and the HTTP status on each outcome of the generation call:
timeout (lines 419-424) bumps only `stats["timeouts"]` and returns 408 with no
cleanup; an engine exception (lines 425-432) runs cleanup and returns 500
without touching stats; success (lines 445-455) runs cleanup, records the
request via `update_stats` and returns 200. -/
def handle_generation_result (s : Stats) (r : GenResult) (total_time : ℚ)
    (quick_mode : Bool) : PathEffects :=
  match r with
  | GenResult.timeout =>
      { stats := { s with timeouts := s.timeouts + 1 }, cleanupRan := false, status := 408 }
  | GenResult.engineError _ =>
      { stats := s, cleanupRan := true, status := 500 }
  | GenResult.ok _ =>
      { stats := update_stats s total_time false quick_mode, cleanupRan := true,
        status := 200 }

/-- The outer `except` of `chat_completions` (lines 487-510): best-effort
cleanup, then `update_stats(error_time, error=True)` (note `quick_mode`
defaults to `False` there), then a 500 response. -/
def handle_outer_exception (s : Stats) (error_time : ℚ) : PathEffects :=
  { stats := update_stats s error_time true false, cleanupRan := true, status := 500 }

/-! ## Image resizing (`resize_image_for_processing`, lines 136-165)

`int(height * max_size / width)` on positive ints is the floor of the exact
quotient; float arithmetic is modelled exactly. -/

def mode_max_size (quick_mode : Bool) : Nat :=
  if quick_mode then 216 else 382

/-- The target dimensions computed at lines 151-158. -/
def resize_dims (width height : Nat) (quick_mode : Bool) : Nat × Nat :=
  let max_size := mode_max_size quick_mode
  if height < width then
    if max_size < width then (max_size, height * max_size / width) else (width, height)
  else
    if max_size < height then (width * max_size / height, max_size) else (width, height)

structure PyImage where
  width : Nat
  height : Nat
deriving DecidableEq, Repr

structure ResizeResult where
  image : PyImage
  /-- Whether `image.resize((width, height), LANCZOS)` was invoked
  (lines 161-163): only when the computed dimensions differ from the input's. -/
  resizeCalled : Bool
deriving DecidableEq, Repr

def resize_image_for_processing (img : PyImage) (quick_mode : Bool) : ResizeResult :=
  let dims := resize_dims img.width img.height quick_mode
  if dims.1 ≠ img.width ∨ dims.2 ≠ img.height then
    { image := { width := dims.1, height := dims.2 }, resizeCalled := true }
  else
    { image := img, resizeCalled := false }

/-! ## Image validation (`validate_image_data`, lines 171-205)

Strings are handled as character lists.  `base64.b64decode` (standard library,
external to the repository) is modelled as an RFC 4648 decoder that, like
Python's non-validating mode, first discards characters outside the alphabet.
PIL's `Image.open(...).convert('RGB')` is external and abstracted as a
parameter returning the decoded pixel dimensions or failing. -/

/-- Prefix test on character lists (`str.startswith`). -/
def startsWithChars : List Char → List Char → Bool
  | _, [] => true
  | [], _ :: _ => false
  | c :: cs, p :: ps => c = p && startsWithChars cs ps

/-- Lowercasing, `header.lower()`, on ASCII input. -/
def lowerChars (s : List Char) : List Char :=
  s.map Char.toLower

/-- Substring containment (Python's `needle in haystack` on strings). -/
def isSubstring (needle : List Char) : List Char → Bool
  | [] => needle.isEmpty
  | c :: cs => startsWithChars (c :: cs) needle || isSubstring needle cs

/-- Embedding of `image_url.split(',', 1)`: the part before the first comma and the
part after it. -/
def splitAtComma : List Char → List Char × List Char
  | [] => ([], [])
  | c :: cs =>
    if c = ',' then ([], cs)
    else ((splitAtComma cs).1.cons c, (splitAtComma cs).2)

/-- Value of one base64 alphabet character. -/
def b64val (c : Char) : Option Nat :=
  if 'A' ≤ c ∧ c ≤ 'Z' then some (c.toNat - 65)
  else if 'a' ≤ c ∧ c ≤ 'z' then some (c.toNat - 97 + 26)
  else if '0' ≤ c ∧ c ≤ '9' then some (c.toNat - 48 + 52)
  else if c = '+' then some 62
  else if c = '/' then some 63
  else none

/-- Discard characters outside the base64 alphabet and padding, as Python's
non-validating `b64decode` does before decoding. -/
def b64filter (s : List Char) : List Char :=
  s.filter (fun c => (b64val c).isSome || c = '=')

def b64byte0 (v0 v1 : Nat) : Nat := v0 * 4 + v1 / 16

def b64byte1 (v1 v2 : Nat) : Nat := (v1 % 16) * 16 + v2 / 4

def b64byte2 (v2 v3 : Nat) : Nat := (v2 % 4) * 64 + v3

/-- Decode filtered base64 text four characters at a time; padding is only
legal at the very end, and a length not a multiple of four fails. -/
def b64decodeChunks : List Char → Option (List Nat)
  | [] => some []
  | a :: b :: c :: d :: rest =>
    match b64val a, b64val b with
    | some v0, some v1 =>
      if c = '=' then
        if d = '=' && rest.isEmpty then some [b64byte0 v0 v1] else none
      else
        match b64val c with
        | some v2 =>
          if d = '=' then
            if rest.isEmpty then some [b64byte0 v0 v1, b64byte1 v1 v2] else none
          else
            match b64val d with
            | some v3 =>
              match b64decodeChunks rest with
              | some tail =>
                  some (b64byte0 v0 v1 :: b64byte1 v1 v2 :: b64byte2 v2 v3 :: tail)
              | none => none
            | none => none
        | none => none
    | _, _ => none
  | _ => none

/-- Model of `base64.b64decode` on the payload after the comma. -/
def b64decode (s : List Char) : Option (List Nat) :=
  b64decodeChunks (b64filter s)

/-- The distinct validation failures; `message` gives each one's
human-readable reason string from the source. -/
inductive ValidationError where
  | notDataUrl
  | noComma
  | unsupportedType
  | badBase64
  | tooLarge
  | corruptImage
deriving DecidableEq, Repr, Fintype

def ValidationError.message : ValidationError → String
  | ValidationError.notDataUrl => "Invalid image format - must be data URL"
  | ValidationError.noComma => "Invalid data URL format"
  | ValidationError.unsupportedType =>
      "Unsupported image type. Supported: jpeg, jpg, png, webp"
  | ValidationError.badBase64 => "Invalid base64 encoding"
  | ValidationError.tooLarge => "Image too large. Max: 10MB"
  | ValidationError.corruptImage => "Corrupted or invalid image file"

def supported_types : List (List Char) :=
  [("jpeg".data), ("jpg".data), ("png".data), ("webp".data)]

def MAX_IMAGE_BYTES : Nat := 10 * 1024 * 1024

/-- The size check and the PIL decode (lines 191-201), applied to the decoded
bytes; `decodeImage` abstracts `Image.open(...).convert('RGB')`,
returning pixel dimensions. -/
def validate_bytes (decodeImage : List Nat → Option (Nat × Nat))
    (image_bytes : List Nat) : Except ValidationError (Nat × Nat) :=
  if MAX_IMAGE_BYTES < image_bytes.length then
    Except.error ValidationError.tooLarge
  else
    match decodeImage image_bytes with
    | some dims => Except.ok dims
    | none => Except.error ValidationError.corruptImage

/-- Embedding of `validate_image_data` (lines 171-205).  Note the supported-type test is
`any(img_type in header.lower() ...)`: substring containment over the whole
pre-comma header, not equality with the declared media type. -/
def validate_image_data (decodeImage : List Nat → Option (Nat × Nat))
    (image_url : String) : Except ValidationError (Nat × Nat) :=
  let chars := image_url.data
  if startsWithChars chars ("data:image".data) = false then
    Except.error ValidationError.notDataUrl
  else if chars.contains ',' = false then
    Except.error ValidationError.noComma
  else
    let header := (splitAtComma chars).1
    let base64_data := (splitAtComma chars).2
    if (supported_types.any (fun t => isSubstring t (lowerChars header))) = false then
      Except.error ValidationError.unsupportedType
    else
      match b64decode base64_data with
      | none => Except.error ValidationError.badBase64
      | some image_bytes => validate_bytes decodeImage image_bytes

/-- Running validation twice on the same payload, as the idempotence property
describes. -/
def validate_twice (decodeImage : List Nat → Option (Nat × Nat)) (image_url : String) :
    Except ValidationError (Nat × Nat) × Except ValidationError (Nat × Nat) :=
  (validate_image_data decodeImage image_url, validate_image_data decodeImage image_url)

/-- The image branch of `chat_completions` (lines 338-345): a validation or
resize failure is caught and turned into a 400 response whose error text
wraps the reason. -/
def process_image_item (decodeImage : List Nat → Option (Nat × Nat))
    (image_url : String) (quick_mode : Bool) : Except (Nat × String) ResizeResult :=
  match validate_image_data decodeImage image_url with
  | Except.error e =>
      Except.error (400, ("Image processing failed: ".append e.message))
  | Except.ok dims =>
      Except.ok (resize_image_for_processing { width := dims.1, height := dims.2 } quick_mode)

/-- Spec-side reading of a data URL's declared media type: the text between
"data:image/" and the first ';' or ','.  Written from the
spec's words ("declared media type is not one of {jpeg, jpg, png, webp}") to
compare with the source's substring-based check. -/
def declaredMediaType (chars : List Char) : List Char :=
  (chars.drop (("data:image/".data).length)).takeWhile
    (fun c => decide (c ≠ ';' ∧ c ≠ ','))

/-! ## Rate-limiter lemmas -/

lemma prune_eq_self {w : List ℚ} {now : ℚ} (h : ∀ t ∈ w, now - t < 3600) :
    prune w now = w := by
  apply List.filter_eq_self.mpr
  intro t ht
  simpa using h t ht

/-- The minute gate as the source takes it: enough recent entries force a
minute-scope denial on the pruned window. -/
lemma minute_denied {w : List ℚ} {now : ℚ}
    (h : MAX_REQUESTS_PER_MINUTE ≤
      ((prune w now).filter (fun t => decide (now - t < 60))).length) :
    rate_limit_check w now
      = { allowed := false, limit_type := some Scope.minute, window := prune w now } := by
  simp only [rate_limit_check]
  rw [if_pos h]

/-- Recent entries survive the hour-long pruning pass, so the minute count can
be read off the raw window. -/
lemma recent_filter_prune (w : List ℚ) (now : ℚ) :
    (prune w now).filter (fun t => decide (now - t < 60))
      = w.filter (fun t => decide (now - t < 60)) := by
  unfold prune
  rw [List.filter_filter]
  apply List.filter_congr
  intro t _
  by_cases h : now - t < 60
  · have h2 : now - t < 3600 := by linarith
    simp [h, h2]
  · simp [h]

/-- An admission check that passes the minute gate against a window whose
entries all lie in the preceding minute: allowed, timestamp appended. -/
lemma check_allows {w : List ℚ} {t : ℚ}
    (hlen : w.length < MAX_REQUESTS_PER_MINUTE)
    (hw : ∀ s ∈ w, 0 ≤ t - s ∧ t - s < 60) :
    rate_limit_check w t
      = { allowed := true, limit_type := none, window := w ++ [t] } := by
  have hp : prune w t = w := prune_eq_self (fun s hs => by linarith [(hw s hs).2])
  have hr : w.filter (fun s => decide (t - s < 60)) = w := by
    apply List.filter_eq_self.mpr
    intro s hs
    simpa using (hw s hs).2
  have hmin : MAX_REQUESTS_PER_MINUTE ≤ w.length → False := fun h => absurd h (by omega)
  have hhour : MAX_REQUESTS_PER_HOUR ≤ w.length → False := by
    simp only [MAX_REQUESTS_PER_MINUTE, MAX_REQUESTS_PER_HOUR] at hlen ⊢
    omega
  simp only [rate_limit_check, hp, hr]
  rw [if_neg (fun h => hmin h), if_neg (fun h => hhour h)]

/-- A burst that stays under the per-minute ceiling and inside one minute is
admitted throughout, and the window accumulates exactly its timestamps. -/
lemma run_checks_all_allowed : ∀ (ts w : List ℚ),
    w.length + ts.length ≤ MAX_REQUESTS_PER_MINUTE →
    (∀ s ∈ w, ∀ t ∈ ts, 0 ≤ t - s ∧ t - s < 60) →
    ts.Sorted (· ≤ ·) →
    (∀ a ∈ ts, ∀ b ∈ ts, a ≤ b → b - a < 60) →
    (run_checks w ts).map (fun r => r.allowed) = List.replicate ts.length true ∧
    run_window w ts = w ++ ts
  | [], w, _, _, _, _ => by simp [run_checks, run_window]
  | t :: ts, w, hlen, hw, hsort, hspan => by
    have hstep : rate_limit_check w t
        = { allowed := true, limit_type := none, window := w ++ [t] } := by
      apply check_allows
      · simp only [List.length_cons] at hlen
        omega
      · exact fun s hs => hw s hs t (List.mem_cons_self t ts)
    have hW : ∀ s ∈ w ++ [t], ∀ u ∈ ts, 0 ≤ u - s ∧ u - s < 60 := by
      intro s hs u hu
      rcases List.mem_append.mp hs with h | h
      · exact hw s h u (List.mem_cons_of_mem t hu)
      · have hst : s = t := by simpa using h
        subst hst
        have hle : s ≤ u := List.rel_of_sorted_cons hsort u hu
        refine ⟨by linarith, ?_⟩
        exact hspan s (List.mem_cons_self _ _) u (List.mem_cons_of_mem _ hu) hle
    have ih := run_checks_all_allowed ts (w ++ [t])
      (by simp only [List.length_append, List.length_cons, List.length_nil] at hlen ⊢; omega)
      hW
      ((List.sorted_cons.mp hsort).2)
      (fun a ha b hb hab =>
        hspan a (List.mem_cons_of_mem _ ha) b (List.mem_cons_of_mem _ hb) hab)
    refine ⟨?_, ?_⟩
    · simp only [run_checks, List.map_cons, ih.1, hstep, List.length_cons,
        List.replicate_succ]
    · simp only [run_window, hstep, ih.2, List.append_assoc, List.singleton_append]

lemma run_checks_append (l l' : List ℚ) : ∀ w : List ℚ,
    run_checks w (l ++ l') = run_checks w l ++ run_checks (run_window w l) l' := by
  induction l with
  | nil => intro w; simp [run_checks, run_window]
  | cons t ts ih => intro w; simp [run_checks, run_window, ih]

/-- C4: a client with at least the per-minute ceiling (60) of recorded
requests in the trailing 60 seconds is denied with minute scope and
`retry_after = 60`; and over a fresh window, 61 requests issued inside one
minute see exactly the first 60 admitted and the 61st denied, minute-scoped. -/
theorem minute_ceiling_denial :
    (∀ (w : List ℚ) (now : ℚ),
      MAX_REQUESTS_PER_MINUTE ≤ (w.filter (fun t => decide (now - t < 60))).length →
      rate_limit_check w now
        = { allowed := false, limit_type := some Scope.minute, window := prune w now } ∧
      retry_after (rate_limit_check w now).limit_type = 60) ∧
    (∀ ts : List ℚ, ts.Sorted (· ≤ ·) →
      ts.length = MAX_REQUESTS_PER_MINUTE + 1 →
      (∀ a ∈ ts, ∀ b ∈ ts, a ≤ b → b - a < 60) →
      (run_checks [] ts).map (fun r => r.allowed)
        = List.replicate MAX_REQUESTS_PER_MINUTE true ++ [false] ∧
      (run_checks [] ts).getLast?.map (fun r => r.limit_type)
        = some (some Scope.minute)) := by
  constructor
  · intro w now h
    have hd : rate_limit_check w now
        = { allowed := false, limit_type := some Scope.minute, window := prune w now } :=
      minute_denied (by rw [recent_filter_prune]; exact h)
    refine ⟨hd, ?_⟩
    rw [hd]
    simp [retry_after]
  · intro ts hsort hlen hspan
    have h0 : ts ≠ [] := by intro h; rw [h] at hlen; simp at hlen
    have hdecomp : ts.dropLast ++ [ts.getLast h0] = ts := List.dropLast_append_getLast h0
    set l := ts.dropLast with hl
    set x := ts.getLast h0 with hx
    have hsubl : l.Sublist ts := List.dropLast_sublist ts
    have hllen : l.length = MAX_REQUESTS_PER_MINUTE := by
      rw [hl, List.length_dropLast, hlen]
      omega
    have hmem : ∀ a ∈ l, a ∈ ts := fun a ha => hsubl.subset ha
    have hxmem : x ∈ ts := List.getLast_mem h0
    have hlex : ∀ a ∈ l, a ≤ x := by
      have hp : List.Pairwise (· ≤ ·) (l ++ [x]) := by
        rw [hdecomp]; exact hsort
      intro a ha
      exact (List.pairwise_append.mp hp).2.2 a ha x (List.mem_singleton.mpr rfl)
    have hrun := run_checks_all_allowed l []
      (by rw [hllen]; simp)
      (by intro s hs; simp at hs)
      (List.Pairwise.sublist hsubl hsort)
      (fun a ha b hb hab => hspan a (hmem a ha) b (hmem b hb) hab)
    have hlast : rate_limit_check l x
        = { allowed := false, limit_type := some Scope.minute, window := prune l x } := by
      apply minute_denied
      rw [recent_filter_prune]
      have hfull : l.filter (fun t => decide (x - t < 60)) = l := by
        apply List.filter_eq_self.mpr
        intro s hs
        have := hspan s (hmem s hs) x hxmem (hlex s hs)
        simpa using this
      rw [hfull, hllen]
    have hsplit : run_checks [] ts = run_checks [] l ++ [rate_limit_check l x] := by
      conv_lhs => rw [← hdecomp]
      rw [run_checks_append]
      have : run_window [] l = l := by simpa using hrun.2
      rw [this]
      simp [run_checks]
    constructor
    · rw [hsplit, List.map_append, hrun.1, hllen, hlast]
      simp
    · rw [hsplit, hlast, List.getLast?_concat]
      simp

/-- C5: the minute gate is evaluated before the hour gate.  With the trailing
minute below its ceiling but the pruned trailing hour at its ceiling (100),
the denial is hour-scoped with `retry_after = 3600`; when both gates are
violated at once the denial is minute-scoped. -/
theorem hour_gate_after_minute_gate (w : List ℚ) (now : ℚ) :
    (((prune w now).filter (fun t => decide (now - t < 60))).length
        < MAX_REQUESTS_PER_MINUTE →
      MAX_REQUESTS_PER_HOUR ≤ (prune w now).length →
      rate_limit_check w now
        = { allowed := false, limit_type := some Scope.hour, window := prune w now } ∧
      retry_after (rate_limit_check w now).limit_type = 3600) ∧
    (MAX_REQUESTS_PER_MINUTE ≤
        ((prune w now).filter (fun t => decide (now - t < 60))).length →
      MAX_REQUESTS_PER_HOUR ≤ (prune w now).length →
      rate_limit_check w now
        = { allowed := false, limit_type := some Scope.minute, window := prune w now }) := by
  constructor
  · intro hmin hhour
    have hd : rate_limit_check w now
        = { allowed := false, limit_type := some Scope.hour, window := prune w now } := by
      simp only [rate_limit_check]
      rw [if_neg (by omega), if_pos hhour]
    refine ⟨hd, ?_⟩
    rw [hd]
    simp [retry_after]
  · intro hmin _
    exact minute_denied hmin

/-- C9: a denied admission check appends no timestamp — the client's window
afterwards is exactly its pruned prior contents. -/
theorem denied_consumes_no_quota (w : List ℚ) (now : ℚ)
    (h : (rate_limit_check w now).allowed = false) :
    (rate_limit_check w now).window = prune w now := by
  simp only [rate_limit_check] at h ⊢
  split_ifs at h ⊢
  all_goals rfl

lemma sorted_replicate (n : Nat) (c : ℚ) : (List.replicate n c).Sorted (· ≤ ·) :=
  List.pairwise_replicate.mpr (Or.inr le_rfl)

lemma span_replicate (n : Nat) (c : ℚ) :
    ∀ a ∈ List.replicate n c, ∀ b ∈ List.replicate n c, a ≤ b → b - a < 60 := by
  intro a ha b hb _
  rw [List.eq_of_mem_replicate ha, List.eq_of_mem_replicate hb]
  norm_num

/-- Witness for C4: sixty recorded hits at time 0 deny the next check with
`retry_after = 60`, and a fresh client firing 61 simultaneous requests gets
60 admissions then a denial. -/
theorem minute_ceiling_denial_witness :
    retry_after (rate_limit_check (List.replicate 60 (0:ℚ)) 0).limit_type = 60 ∧
    (run_checks [] (List.replicate 61 (0:ℚ))).map (fun r => r.allowed)
      = List.replicate MAX_REQUESTS_PER_MINUTE true ++ [false] := by
  constructor
  · exact (minute_ceiling_denial.1 (List.replicate 60 (0:ℚ)) 0
      (by norm_num [List.filter_replicate, MAX_REQUESTS_PER_MINUTE])).2
  · exact (minute_ceiling_denial.2 (List.replicate 61 (0:ℚ))
      (sorted_replicate 61 0)
      (by norm_num [MAX_REQUESTS_PER_MINUTE])
      (span_replicate 61 0)).1

/-- Witness for C5: one hundred hits recorded an hour-window ago (but outside
the trailing minute) make the next check an hour-scope denial with
`retry_after = 3600`; the same hundred hits inside the trailing minute make it
a minute-scope denial. -/
theorem hour_gate_after_minute_gate_witness :
    rate_limit_check (List.replicate 100 (0:ℚ)) 100
      = { allowed := false, limit_type := some Scope.hour,
          window := prune (List.replicate 100 (0:ℚ)) 100 } ∧
    retry_after (rate_limit_check (List.replicate 100 (0:ℚ)) 100).limit_type = 3600 ∧
    rate_limit_check (List.replicate 100 (0:ℚ)) 0
      = { allowed := false, limit_type := some Scope.minute,
          window := prune (List.replicate 100 (0:ℚ)) 0 } := by
  have h1 := (hour_gate_after_minute_gate (List.replicate 100 (0:ℚ)) 100).1
    (by norm_num [prune, List.filter_replicate, MAX_REQUESTS_PER_MINUTE])
    (by norm_num [prune, List.filter_replicate, MAX_REQUESTS_PER_HOUR])
  have h2 := (hour_gate_after_minute_gate (List.replicate 100 (0:ℚ)) 0).2
    (by norm_num [prune, List.filter_replicate, MAX_REQUESTS_PER_MINUTE])
    (by norm_num [prune, List.filter_replicate, MAX_REQUESTS_PER_HOUR])
  exact ⟨h1.1, h1.2, h2⟩

/-- Witness for C9: a minute-scope denial at time 0 leaves the sixty recorded
timestamps untouched. -/
theorem denied_consumes_no_quota_witness :
    (rate_limit_check (List.replicate 60 (0:ℚ)) 0).window
      = prune (List.replicate 60 (0:ℚ)) 0 :=
  denied_consumes_no_quota (List.replicate 60 (0:ℚ)) 0
    (by rw [minute_denied (by norm_num [prune, List.filter_replicate, MAX_REQUESTS_PER_MINUTE])])

/-! ## Stats recording, timeout outcome, and memory reclamation -/

/-- C1, counterexample: on the timeout path the stats accumulator does not
record the request as a failure — neither the processed counter nor the error
counter moves before the 408 response. -/
theorem stats_failure_recording_cex :
    ¬ ((handle_generation_result (initial_stats 0) GenResult.timeout 5 false).stats.requests_processed
          = (initial_stats 0).requests_processed + 1 ∧
       (handle_generation_result (initial_stats 0) GenResult.timeout 5 false).stats.errors
          = (initial_stats 0).errors + 1) := by
  decide

/-- C1, amended: a timeout bumps only the timeout counter before the response;
an engine failure caught at the generation call changes no counter; the
processed and error counters move only for failures reaching the outer
handler, and the processed counter moves on success. -/
theorem stats_failure_recording (s : Stats) (t : ℚ) (q : Bool) (msg : String)
    (ids : List Nat) :
    (handle_generation_result s GenResult.timeout t q).stats
      = { s with timeouts := s.timeouts + 1 } ∧
    (handle_generation_result s (GenResult.engineError msg) t q).stats = s ∧
    (handle_outer_exception s t).stats.requests_processed = s.requests_processed + 1 ∧
    (handle_outer_exception s t).stats.errors = s.errors + 1 ∧
    (handle_outer_exception s t).stats.timeouts = s.timeouts ∧
    (handle_generation_result s (GenResult.ok ids) t q).stats.requests_processed
      = s.requests_processed + 1 ∧
    (handle_generation_result s (GenResult.ok ids) t q).stats.errors = s.errors := by
  refine ⟨rfl, rfl, ?_, ?_, ?_, ?_, ?_⟩ <;>
    cases q <;>
    simp [handle_generation_result, handle_outer_exception, update_stats]

/-- C2: an inference call whose duration exceeds the mode's deadline (45s
quick, 90s normal) yields the timeout outcome — never the success outcome,
whatever the engine eventually produces — the worker thread is abandoned, and
the handler answers 408. -/
theorem timeout_yields_timeout (eng : EngineBehavior) (quick_mode : Bool)
    (h : mode_timeout quick_mode < eng.duration) :
    (generation_with_timeout eng (mode_timeout quick_mode)).result = GenResult.timeout ∧
    (∀ ids, (generation_with_timeout eng (mode_timeout quick_mode)).result
      ≠ GenResult.ok ids) ∧
    (generation_with_timeout eng (mode_timeout quick_mode)).workerAbandoned = true ∧
    (∀ (s : Stats) (t : ℚ),
      (handle_generation_result s
        (generation_with_timeout eng (mode_timeout quick_mode)).result t
        quick_mode).status = 408) := by
  have hg : generation_with_timeout eng (mode_timeout quick_mode)
      = { result := GenResult.timeout, workerAbandoned := true } := by
    simp only [generation_with_timeout, if_pos h]
  rw [hg]
  exact ⟨rfl, fun ids hc => by simp at hc, rfl, fun s t => rfl⟩

/-- Witness for C2: a 100-second generation in normal mode (deadline 90s)
times out even though the engine would eventually succeed. -/
theorem timeout_yields_timeout_witness :
    mode_timeout false < (100:ℚ) ∧
    (generation_with_timeout { duration := 100, outcome := EngineResult.success [1] }
      (mode_timeout false)).result = GenResult.timeout :=
  ⟨by norm_num [mode_timeout],
   (timeout_yields_timeout { duration := 100, outcome := EngineResult.success [1] } false
      (by norm_num [mode_timeout])).1⟩

/-- C3, counterexample: the timeout return path does not run the reclamation
pass (no `gc.collect()` / cache release before the 408 response). -/
theorem memory_reclamation_cex :
    ¬ ((handle_generation_result (initial_stats 0) GenResult.timeout 5 false).cleanupRan
        = true) := by
  decide

/-- C3, amended: the reclamation after-call step runs on the success path, the
engine-failure path and the outer-exception path, but not on the timeout
path. -/
theorem memory_reclamation_paths (s : Stats) (t : ℚ) (q : Bool) (msg : String)
    (ids : List Nat) :
    (handle_generation_result s (GenResult.ok ids) t q).cleanupRan = true ∧
    (handle_generation_result s (GenResult.engineError msg) t q).cleanupRan = true ∧
    (handle_outer_exception s t).cleanupRan = true ∧
    (handle_generation_result s GenResult.timeout t q).cleanupRan = false :=
  ⟨rfl, rfl, rfl, rfl⟩

/-! ## Resize lemmas -/

lemma resize_dims_wide {w h : Nat} {q : Bool} (hcmp : h < w)
    (hbig : mode_max_size q < w) :
    resize_dims w h q = (mode_max_size q, h * mode_max_size q / w) := by
  simp only [resize_dims]
  rw [if_pos hcmp, if_pos hbig]

lemma resize_dims_tall {w h : Nat} {q : Bool} (hcmp : ¬ h < w)
    (hbig : mode_max_size q < h) :
    resize_dims w h q = (w * mode_max_size q / h, mode_max_size q) := by
  simp only [resize_dims]
  rw [if_neg hcmp, if_pos hbig]

lemma resize_dims_noop {w h : Nat} {q : Bool} (hle : max w h ≤ mode_max_size q) :
    resize_dims w h q = (w, h) := by
  simp only [resize_dims]
  by_cases hcmp : h < w
  · rw [if_pos hcmp, if_neg (by have := le_trans (Nat.le_max_left w h) hle; omega)]
  · rw [if_neg hcmp, if_neg (by have := le_trans (Nat.le_max_right w h) hle; omega)]

/-- C6: when an image's max edge exceeds the mode cap (216 quick, 382 normal),
the resized max edge equals the cap and the shorter edge is the proportional
scale floored to an integer; when the max edge is within the cap the image is
returned unchanged with no resize call. -/
theorem resize_law (w h : Nat) (q : Bool) (hw : 0 < w) (hh : 0 < h) :
    (mode_max_size q < max w h →
      max (resize_image_for_processing { width := w, height := h } q).image.width
          (resize_image_for_processing { width := w, height := h } q).image.height
        = mode_max_size q ∧
      (h < w → (resize_image_for_processing { width := w, height := h } q).image
          = { width := mode_max_size q, height := h * mode_max_size q / w }) ∧
      (w ≤ h → (resize_image_for_processing { width := w, height := h } q).image
          = { width := w * mode_max_size q / h, height := mode_max_size q }) ∧
      (resize_image_for_processing { width := w, height := h } q).resizeCalled = true) ∧
    (max w h ≤ mode_max_size q →
      resize_image_for_processing { width := w, height := h } q
        = { image := { width := w, height := h }, resizeCalled := false }) := by
  constructor
  · intro hM
    by_cases hcmp : h < w
    · have hCw : mode_max_size q < w := by
        rw [Nat.max_eq_left (le_of_lt hcmp)] at hM
        exact hM
      have hshort : h * mode_max_size q / w ≤ mode_max_size q :=
        calc h * mode_max_size q / w ≤ h * mode_max_size q / h :=
              Nat.div_le_div_left (le_of_lt hcmp) hh
          _ = mode_max_size q := Nat.mul_div_cancel_left _ hh
      have himg : resize_image_for_processing { width := w, height := h } q
          = { image := { width := mode_max_size q, height := h * mode_max_size q / w },
              resizeCalled := true } := by
        simp only [resize_image_for_processing, resize_dims_wide hcmp hCw]
        rw [if_pos (Or.inl (Nat.ne_of_lt hCw))]
      rw [himg]
      exact ⟨Nat.max_eq_left hshort, fun _ => rfl, fun hcon => absurd hcon (by omega),
        rfl⟩
    · have hwh : w ≤ h := Nat.not_lt.mp hcmp
      have hCh : mode_max_size q < h := by
        rw [Nat.max_eq_right hwh] at hM
        exact hM
      have hshort : w * mode_max_size q / h ≤ mode_max_size q :=
        calc w * mode_max_size q / h ≤ w * mode_max_size q / w :=
              Nat.div_le_div_left hwh hw
          _ = mode_max_size q := Nat.mul_div_cancel_left _ hw
      have himg : resize_image_for_processing { width := w, height := h } q
          = { image := { width := w * mode_max_size q / h, height := mode_max_size q },
              resizeCalled := true } := by
        simp only [resize_image_for_processing, resize_dims_tall hcmp hCh]
        rw [if_pos (Or.inr (Nat.ne_of_lt hCh))]
      rw [himg]
      exact ⟨Nat.max_eq_right hshort, fun hcon => absurd hcon (by omega), fun _ => rfl,
        rfl⟩
  · intro hle
    simp only [resize_image_for_processing, resize_dims_noop hle]
    rw [if_neg (by simp)]

/-- Witness for C6: a 1000 by 500 image in normal mode resizes to 382 by 191;
a 100 by 50 image is within budget and returned unchanged. -/
theorem resize_law_witness :
    (0:Nat) < 1000 ∧
    (resize_image_for_processing { width := 1000, height := 500 } false).image
      = { width := mode_max_size false, height := 500 * mode_max_size false / 1000 } ∧
    resize_image_for_processing { width := 100, height := 50 } false
      = { image := { width := 100, height := 50 }, resizeCalled := false } := by
  refine ⟨by norm_num, ?_, ?_⟩
  · exact ((resize_law 1000 500 false (by norm_num) (by norm_num)).1 (by decide)).2.1
      (by norm_num)
  · exact (resize_law 100 50 false (by norm_num) (by norm_num)).2 (by decide)

/-- C10: a 1000 by 1 image in normal mode has its shorter edge floored to 0 —
the computed target is (382, 0) and a resize to that zero-height target is
attempted, so the output dimensions are not both at least 1. -/
theorem resize_floors_to_zero :
    resize_dims 1000 1 false = (382, 0) ∧
    (resize_image_for_processing { width := 1000, height := 1 } false).resizeCalled
      = true ∧
    (resize_image_for_processing { width := 1000, height := 1 } false).image.height
      = 0 := by
  decide

/-! ## Validation theorems -/

/-- C7, counterexample: the supported-type test is substring containment over
the whole header, so a payload whose declared media type is "fakepng" — not
one of {jpeg, jpg, png, webp} — passes validation whole. -/
theorem validate_rejections_cex :
    declaredMediaType (("data:image/fakepng;base64,AAAA").data) ∉ supported_types ∧
    validate_image_data (fun bs => some (bs.length, 1))
      ("data:image/fakepng;base64,AAAA") = Except.ok (3, 1) :=
  ⟨by decide, rfl⟩

/-- C7, amended: validation rejects a payload lacking a comma, a payload whose
lowercased header contains none of jpeg/jpg/png/webp as a substring (hence any
gif data-URL, answered 400 with the "Unsupported image type" reason), a
payload whose base64 decoding fails, decoded bytes longer than 10 MiB, and
bytes the image decoder rejects, each with a distinct human-readable reason;
but a media type outside the set whose name merely contains a supported token
escapes the type check. -/
theorem validate_rejections (d : List Nat → Option (Nat × Nat)) (url : String) :
    (startsWithChars url.data (("data:image").data) = true →
      url.data.contains ',' = false →
      validate_image_data d url = Except.error ValidationError.noComma) ∧
    (startsWithChars url.data (("data:image").data) = true →
      url.data.contains ',' = true →
      supported_types.any
          (fun t => isSubstring t (lowerChars (splitAtComma url.data).1)) = false →
      validate_image_data d url = Except.error ValidationError.unsupportedType) ∧
    (startsWithChars url.data (("data:image").data) = true →
      url.data.contains ',' = true →
      supported_types.any
          (fun t => isSubstring t (lowerChars (splitAtComma url.data).1)) = true →
      b64decode (splitAtComma url.data).2 = none →
      validate_image_data d url = Except.error ValidationError.badBase64) ∧
    (∀ bs : List Nat, MAX_IMAGE_BYTES < bs.length →
      validate_bytes d bs = Except.error ValidationError.tooLarge) ∧
    (∀ bs : List Nat, ¬ MAX_IMAGE_BYTES < bs.length → d bs = none →
      validate_bytes d bs = Except.error ValidationError.corruptImage) ∧
    (startsWithChars url.data (("data:image").data) = true →
      url.data.contains ',' = true →
      supported_types.any
          (fun t => isSubstring t (lowerChars (splitAtComma url.data).1)) = true →
      ∀ bs : List Nat, b64decode (splitAtComma url.data).2 = some bs →
      validate_image_data d url = validate_bytes d bs) ∧
    validate_image_data d ("data:image/gif;base64,AAAA")
      = Except.error ValidationError.unsupportedType ∧
    process_image_item d ("data:image/gif;base64,AAAA") false
      = Except.error (400, (("Image processing failed: ").append
          (ValidationError.message ValidationError.unsupportedType))) ∧
    startsWithChars (ValidationError.message ValidationError.unsupportedType).data
      (("Unsupported image type").data) = true ∧
    (∀ e1 e2 : ValidationError, e1 ≠ e2 → e1.message ≠ e2.message) := by
  refine ⟨?_, ?_, ?_, ?_, ?_, ?_, rfl, rfl, rfl, by decide⟩
  · intro h1 h2
    simp only [validate_image_data]
    rw [if_neg (by simp [h1]), if_pos h2]
  · intro h1 h2 h3
    simp only [validate_image_data]
    rw [if_neg (by simp [h1]), if_neg (by simpa using h2), if_pos h3]
  · intro h1 h2 h3 h4
    simp only [validate_image_data]
    rw [if_neg (by simp [h1]), if_neg (by simpa using h2), if_neg (by simp [h3]), h4]
  · intro bs hbs
    simp [validate_bytes, hbs]
  · intro bs h1 h2
    simp [validate_bytes, h1, h2]
  · intro h1 h2 h3 bs hbs
    simp only [validate_image_data]
    rw [if_neg (by simp [h1]), if_neg (by simpa using h2), if_neg (by simp [h3]), hbs]

/-- Witness for C7: each rejection branch hit at a concrete payload. -/
theorem validate_rejections_witness :
    validate_image_data (fun _ => none) ("data:imagex")
      = Except.error ValidationError.noComma ∧
    validate_image_data (fun _ => none) ("data:image/bmp;base64,AAAA")
      = Except.error ValidationError.unsupportedType ∧
    validate_image_data (fun _ => none) ("data:image/png;base64,A")
      = Except.error ValidationError.badBase64 ∧
    validate_bytes (fun _ => none) (List.replicate (MAX_IMAGE_BYTES + 1) 0)
      = Except.error ValidationError.tooLarge ∧
    validate_bytes (fun _ => none) ([])
      = Except.error ValidationError.corruptImage ∧
    validate_image_data (fun _ => none) ("data:image/png;base64,AAAA")
      = validate_bytes (fun _ => none) ([0, 0, 0]) := by
  refine ⟨?_, ?_, ?_, ?_, ?_, ?_⟩
  · exact (validate_rejections (fun _ => none) ("data:imagex")).1 rfl rfl
  · exact (validate_rejections (fun _ => none) ("data:image/bmp;base64,AAAA")).2.1
      rfl rfl (by decide)
  · exact (validate_rejections (fun _ => none) ("data:image/png;base64,A")).2.2.1
      rfl rfl (by decide) rfl
  · exact (validate_rejections (fun _ => none) ("x")).2.2.2.1
      (List.replicate (MAX_IMAGE_BYTES + 1) 0)
      (by rw [List.length_replicate]; omega)
  · exact (validate_rejections (fun _ => none) ("x")).2.2.2.2.1 ([])
      (by decide) rfl
  · exact (validate_rejections (fun _ => none) ("data:image/png;base64,AAAA")).2.2.2.2.2.1
      rfl rfl (by decide) ([0, 0, 0]) rfl

/-- C8: validation is a deterministic function of its payload — validating the
same well-formed data-URL twice yields identical decoded pixel dimensions. -/
theorem validate_idempotent (d : List Nat → Option (Nat × Nat)) (url : String) :
    (validate_twice d url).1 = (validate_twice d url).2 ∧
    ∀ w h : Nat, (validate_twice d url).1 = Except.ok (w, h) →
      (validate_twice d url).2 = Except.ok (w, h) :=
  ⟨rfl, fun _ _ hh => hh⟩

/-- Witness for C8: a concrete well-formed PNG data-URL decodes to the same
dimensions on both validation runs. -/
theorem validate_idempotent_witness :
    (validate_twice (fun bs => some (bs.length, 1)) ("data:image/png;base64,AAAA")).2
      = Except.ok (3, 1) :=
  (validate_idempotent (fun bs => some (bs.length, 1))
    ("data:image/png;base64,AAAA")).2 3 1 rfl

end Server
